import Mathlib

/-!
# Verification of the e-commerce backend core (`main.py`)

Shallow embedding of the generic document persistence and validation layer:
the identifier codec (bson `ObjectId` ↔ hex string), the document serializer
(`serialize_doc`), the seeder (`seed_products`), product lookup
(`get_product`), product listing (`list_products`), order creation with
referential validation (`create_order`), and the diagnostic endpoint
(`test_database`).

Python dicts are embedded as association lists with unique keys and
insertion order (`Doc`); the Mongo database handle is an explicit `DB`
state threaded through the operations; an unavailable database is the
`none` case of `Option DB`; raised `HTTPException`s are the `error` case
of `ApiResult`.
-/

set_option autoImplicit false

namespace ECom

/-- A BSON-style field value.  Mongo `ObjectId`s are carried as their
12-byte content (`oid`); numbers are embedded as rationals. -/
inductive Value where
  | str (s : String)
  | num (q : ℚ)
  | bool (b : Bool)
  | oid (bytes : List Nat)
deriving DecidableEq, Repr

/-- A stored document: a Python dict embedded as an association list
(field name, value) in insertion order. -/
abbrev Doc := List (String × Value)

/-- Python `d[k]` / Mongo field access: first binding of key `k`. -/
def dictLookup (k : String) : Doc → Option Value
  | [] => none
  | (k2, v) :: rest => if k2 = k then some v else dictLookup k rest

/-- Python `d.pop(k)`'s effect on the dict: remove the binding of `k`. -/
def dictErase (k : String) (d : Doc) : Doc :=
  d.filter (fun p => p.1 ≠ k)

/-- Python `d[k] = v`: replace the value in place if the key is present,
else append the new binding at the end (dict insertion order). -/
def dictSet (k : String) (v : Value) : Doc → Doc
  | [] => [(k, v)]
  | (k2, v2) :: rest =>
      if k2 = k then (k, v) :: rest else (k2, v2) :: dictSet k v rest

/-! ## Identifier codec (bson `ObjectId` ↔ 24-char hex string)

Modelled from the spec: the codec is the external `bson` library
(`ObjectId(s)` and `str(objectId)`), not part of `src/`.  Per §4.1 an
`ObjectId` is 12 bytes; its string form is 24 hex characters; `ObjectId(s)`
raises `InvalidId` ("MalformedIdentifier") on a string of the wrong
length or charset, accepting both upper- and lower-case hex digits. -/

/-- Value of a hex digit character (both cases accepted), `none` if not hex. -/
def hexCharVal (c : Char) : Option Nat :=
  if '0' ≤ c ∧ c ≤ '9' then some (c.toNat - '0'.toNat)
  else if 'a' ≤ c ∧ c ≤ 'f' then some (c.toNat - 'a'.toNat + 10)
  else if 'A' ≤ c ∧ c ≤ 'F' then some (c.toNat - 'A'.toNat + 10)
  else none

/-- Whether a character is a hex digit. -/
def isHexChar (c : Char) : Bool := (hexCharVal c).isSome

/-- Lower-case hex digit for a nibble. -/
def hexDigitChar (n : Nat) : Char :=
  if n < 10 then Char.ofNat ('0'.toNat + n) else Char.ofNat ('a'.toNat + (n - 10))

/-- Lower-case hex rendering of a byte list (two digits per byte):
`str(ObjectId)`. -/
def bytesToHex : List Nat → List Char
  | [] => []
  | b :: rest => hexDigitChar (b / 16) :: hexDigitChar (b % 16) :: bytesToHex rest

/-- `str(objectId)`: the 24-character lower-case hex string of its bytes. -/
def bytesToHexStr (bs : List Nat) : String := String.mk (bytesToHex bs)

/-- Parse a hex character list two digits at a time into bytes. -/
def parseHexBytes : List Char → Option (List Nat)
  | [] => some []
  | [_] => none
  | c1 :: c2 :: rest =>
      match hexCharVal c1, hexCharVal c2, parseHexBytes rest with
      | some h, some l, some bs => some ((h * 16 + l) :: bs)
      | _, _, _ => none

/-- `ObjectId(s)`: succeeds exactly on 24-character hex strings, returning
the 12 bytes; `none` is bson's `InvalidId` ("MalformedIdentifier"). -/
def objectIdOfString (s : String) : Option (List Nat) :=
  if s.length = 24 then parseHexBytes s.data else none

/-- bson's `InvalidId` exception message for a malformed id string
(`str(e)` as seen in an HTTP 500 detail). -/
def invalidIdMsg (s : String) : String :=
  "'" ++ s ++ "' is not a valid ObjectId, it must be a 12-byte input or a 24-character hex string"

/-! ## Schemas

Modelled from the spec: `schemas.py` is not in `src/`.  Per §3 an
`OrderItem` carries a `product_id` string and a quantity, and an `Order`
is a list of line items.  (`main.py` reads only `order.items` and
`item.product_id`.) -/

/-- An order line item (`schemas.Order` item). -/
structure OrderItem where
  product_id : String
  quantity : Nat
deriving DecidableEq, Repr

/-- An order payload (`schemas.Order`). -/
structure Order where
  items : List OrderItem
deriving DecidableEq, Repr

/-! ## The database state -/

/-- The Mongo database handle `db`: the product collection as raw
documents, the order collection as (native id, order payload) pairs
persisted verbatim plus identifier (spec §4.2), the database name, and a
counter from which fresh `ObjectId`s are drawn. -/
structure DB where
  name : String
  products : List Doc
  orders : List (List Nat × Order)
  nextId : Nat
deriving DecidableEq, Repr

/-- The 12-byte `ObjectId` content assigned for the `n`-th insertion
(big-endian bytes of `n`): a fresh, never-reused identifier. -/
def natToOidBytes (n : Nat) : List Nat :=
  (List.range 12).map (fun i => n / 256 ^ (11 - i) % 256)

/-- Result of a request handler: a successful JSON value, or a raised
`HTTPException(status_code, detail)`. -/
inductive ApiResult (α : Type) where
  | ok (v : α)
  | error (status : Nat) (detail : String)
deriving DecidableEq, Repr

/-- `db["product"].find_one({"_id": oid})`: first product document whose
`_id` field equals the given `ObjectId`. -/
def findProductById (products : List Doc) (oidBytes : List Nat) : Option Doc :=
  products.find? (fun d => dictLookup "_id" d == some (Value.oid oidBytes))

/-- Python truthiness of `find_one`'s result as tested by `if not doc:`
(`None` or an empty dict are falsy). -/
def pyFalsyDoc : Option Doc → Bool
  | none => true
  | some d => d.isEmpty

/-- `str(value)` as applied to a stored field value; for the `_id` field
this is the `ObjectId` hex form. -/
def pyStr : Value → String
  | .str s => s
  | .num q => toString q
  | .bool b => if b then "True" else "False"
  | .oid bs => bytesToHexStr bs

/-! ## Serializer (`serialize_doc`, main.py lines 29–35) -/

/-- `serialize_doc` on a (truthy) dict: copy, pop `_id`, and set
`id = str(_id)`; a falsy (empty) dict passes through. -/
def serialize_doc (doc : Doc) : Doc :=
  if doc.isEmpty then doc
  else
    match dictLookup "_id" doc with
    | some v => dictSet "id" (.str (pyStr v)) (dictErase "_id" doc)
    | none => doc

/-! ### Heap-level serializer for the mutation claim

Python dicts are reference values; to state that `serialize_doc` does not
mutate its argument we run its body over an explicit heap of dict cells
(`none` is Python `None`).  `doc = dict(doc)` allocates a fresh cell with
a copy; the `pop` and item assignment hit that fresh cell only. -/

/-- A heap of Python dict references; a cell holds `None` or a dict. -/
abbrev Heap := List (Option Doc)

/-- Dereference a heap address. -/
def hget (h : Heap) (a : Nat) : Option Doc := h.getD a none

/-- `serialize_doc`'s body over the heap: takes the address of the
argument, returns (final heap, address of the returned dict).  A falsy
argument (`None` or `{}`) is returned as-is; otherwise `dict(doc)`
allocates a copy at a fresh address and the `pop`/assignment mutate only
that copy. -/
def serialize_doc_heap (h : Heap) (a : Nat) : Heap × Nat :=
  match hget h a with
  | none => (h, a)
  | some d =>
    if d.isEmpty then (h, a)
    else
      let b := h.length
      let h1 := h ++ [some d]
      match dictLookup "_id" d with
      | some v => (h1.set b (some (dictSet "id" (.str (pyStr v)) (dictErase "_id" d))), b)
      | none => (h1, b)

/-! ## Get product by id (`get_product`, main.py lines 59–71)

`db is None` raises a generic exception (→ 500); a malformed id makes
`ObjectId(product_id)` raise bson's `InvalidId`, caught by the generic
`except` (→ 500 with bson's message); `find_one` returning a falsy value
raises `HTTPException(404)`, re-raised as-is. -/

/-- `GET /api/products/{product_id}` handler. -/
def get_product (db : Option DB) (product_id : String) : ApiResult Doc :=
  match db with
  | none => .error 500 "Database not available"
  | some d =>
    match objectIdOfString product_id with
    | none => .error 500 (invalidIdMsg product_id)
    | some oidBytes =>
      match findProductById d.products oidBytes with
      | none => .error 404 "Product not found"
      | some doc =>
          if doc.isEmpty then .error 404 "Product not found"
          else .ok (serialize_doc doc)

/-! ## Seeder (`seed_products`, main.py lines 74–119) -/

/-- The fixed starter dataset hard-coded in `seed_products`. -/
def seedDataset : List Doc :=
  [ [ ("title", .str "Classic White T-Shirt"),
      ("description", .str "100% cotton, breathable, and perfect for everyday wear."),
      ("price", .num 699),
      ("category", .str "Apparel"),
      ("image", .str "https://images.unsplash.com/photo-1520975916090-3105956dac38?w=800"),
      ("in_stock", .bool true) ],
    [ ("title", .str "Wireless Headphones"),
      ("description", .str "Noise-cancelling over-ear headphones with 30h battery life."),
      ("price", .num 4999),
      ("category", .str "Electronics"),
      ("image", .str "https://images.unsplash.com/photo-1518449037270-557fef82de76?w=800"),
      ("in_stock", .bool true) ],
    [ ("title", .str "Ceramic Coffee Mug"),
      ("description", .str "Handmade mug with matte finish and 350ml capacity."),
      ("price", .num 349),
      ("category", .str "Home"),
      ("image", .str "https://images.unsplash.com/photo-1523942839745-7848d4a7aa89?w=800"),
      ("in_stock", .bool true) ],
    [ ("title", .str "Running Shoes"),
      ("description", .str "Lightweight shoes designed for comfort and performance."),
      ("price", .num 2999),
      ("category", .str "Footwear"),
      ("image", .str "https://images.unsplash.com/photo-1542291026-7eec264c27ff?w=800"),
      ("in_stock", .bool true) ] ]

/-- `db["product"].insert_many(docs)`: each document is persisted with a
fresh server-assigned `_id`, appended in order. -/
def insertManyProducts (d : DB) (docs : List Doc) : DB :=
  { d with
      products := d.products ++
        docs.enum.map (fun p => ("_id", Value.oid (natToOidBytes (d.nextId + p.1))) :: p.2),
      nextId := d.nextId + docs.length }

/-- The seed endpoint's JSON response `{"inserted": …, "status": …}`. -/
structure SeedResp where
  inserted : Nat
  status : String
deriving DecidableEq, Repr

/-- `POST /api/seed-products` handler: inserts the dataset only if
`count_documents({}) == 0`. Returns the database state after the call and
the response. -/
def seed_products (db : Option DB) : Option DB × ApiResult SeedResp :=
  match db with
  | none => (none, .error 500 "Database not available")
  | some d =>
    if d.products.length = 0 then
      (some (insertManyProducts d seedDataset),
       .ok ⟨seedDataset.length, "seeded"⟩)
    else
      (some d, .ok ⟨0, "already-seeded"⟩)

/-! ## Order creation (`create_order`, main.py lines 124–137) -/

/-- The validation loop `for item in order.items: …`: returns the
(status, detail) of the first raised exception, or `none` when every item
passes.  A malformed `product_id` raises bson's `InvalidId`, which the
generic `except` maps to 500; a well-formed but unresolved id raises
`HTTPException(400, "Invalid product ID: …")`, re-raised as-is. -/
def validateItems (d : DB) : List OrderItem → Option (Nat × String)
  | [] => none
  | item :: rest =>
    match objectIdOfString item.product_id with
    | none => some (500, invalidIdMsg item.product_id)
    | some oidBytes =>
      if pyFalsyDoc (findProductById d.products oidBytes) then
        some (400, "Invalid product ID: " ++ item.product_id)
      else
        validateItems d rest

/-- `create_document("order", order)`.
Modelled from the spec: `database.py` is not in `src/`.  Per §4.2,
`insert` assigns a new unique identifier, persists the document verbatim
plus the identifier, and returns the identifier. -/
def create_document_order (d : DB) (o : Order) : DB × List Nat :=
  ({ d with orders := d.orders ++ [(natToOidBytes d.nextId, o)], nextId := d.nextId + 1 },
   natToOidBytes d.nextId)

/-- `POST /api/orders` handler: validates every line item's product
reference, then persists the order.  Returns the database state after the
call and the response (`{"id": …}` on success). -/
def create_order (db : Option DB) (o : Order) : Option DB × ApiResult String :=
  match db with
  | none => (none, .error 500 "Database not available")
  | some d =>
    match validateItems d o.items with
    | some e => (some d, .error e.1 e.2)
    | none =>
      let r := create_document_order d o
      (some r.1, .ok (bytesToHexStr r.2))

/-- Whether a line item's `product_id` resolves: it parses as an
`ObjectId` and `find_one` on the product collection returns a truthy
document. -/
def itemResolves (d : DB) (pid : String) : Bool :=
  match objectIdOfString pid with
  | none => false
  | some oidBytes => !pyFalsyDoc (findProductById d.products oidBytes)

/-! ## Product listing (`list_products`, main.py lines 49–56) -/

/-- `get_documents(collection, filter_dict, limit)`.
Modelled from the spec: `database.py` is not in `src/`.  Per §4.2,
`query` exact-matches every filter field (an empty mapping means no
filtering) and caps the result count at `limit`. -/
def get_documents (docs : List Doc) (filter_dict : List (String × Value)) (limit : Nat) : List Doc :=
  (docs.filter (fun d => filter_dict.all (fun kv => dictLookup kv.1 d == some kv.2))).take limit

/-- `GET /api/products` handler: `filter_dict = {"category": category} if
category else {}` — Python truthiness, so `None` and `""` both yield the
empty filter. -/
def list_products (db : Option DB) (category : Option String) (limit : Nat) : ApiResult (List Doc) :=
  match db with
  | none => .error 500 "Database not available"
  | some d =>
    let filter_dict : List (String × Value) :=
      match category with
      | none => []
      | some c => if c.isEmpty then [] else [("category", Value.str c)]
    .ok ((get_documents d.products filter_dict limit).map serialize_doc)

/-! ## Diagnostic endpoint (`test_database`, main.py lines 149–184) -/

/-- The two environment values the diagnostic endpoint inspects
(`os.getenv` returns `None` when unset). -/
structure Env where
  database_url : Option String
  database_name : Option String
deriving DecidableEq, Repr

/-- Python truthiness of `os.getenv(...)`: unset (`None`) and the empty
string are falsy. -/
def pyTruthyStrOpt : Option String → Bool
  | none => false
  | some s => !s.isEmpty

/-- The diagnostic endpoint's response dict.  `database_url` and
`database_name` hold Python `None` before being assigned (hence
`Option String`). -/
structure TestResponse where
  backend : String
  database : String
  database_url : Option String
  database_name : Option String
  connection_status : String
  collections : List String
deriving DecidableEq, Repr

/-- `GET /test` handler.  `listRes` is the outcome of the external call
`db.list_collection_names()` (it may raise).  The final two assignments
overwrite `database_url` / `database_name` with set/not-set indicators
computed from the environment. -/
def test_database (db : Option DB) (listRes : Except String (List String)) (env : Env) :
    TestResponse :=
  let r :=
    match db with
    | some d =>
      let base : TestResponse :=
        { backend := "✅ Running",
          database := "✅ Available",
          database_url := some "✅ Configured",
          database_name := some d.name,
          connection_status := "Connected",
          collections := [] }
      match listRes with
      | .ok cs => { base with collections := cs.take 10, database := "✅ Connected & Working" }
      | .error e => { base with database := "⚠️  Connected but Error: " ++ e.take 50 }
    | none =>
      { backend := "✅ Running",
        database := "⚠️  Available but not initialized",
        database_url := none,
        database_name := none,
        connection_status := "Not Connected",
        collections := [] }
  { r with
      database_url := some (if pyTruthyStrOpt env.database_url then "✅ Set" else "❌ Not Set"),
      database_name := some (if pyTruthyStrOpt env.database_name then "✅ Set" else "❌ Not Set") }

/-! ## Concrete sample states (used by witnesses and counterexamples) -/

/-- An available database with both collections empty. -/
def dbEmpty : DB := ⟨"ecommerce", [], [], 0⟩

/-- A sample stored product document. -/
def sampleDoc : Doc := [("_id", .oid (natToOidBytes 3)), ("title", .str "Mug")]

/-- An available database holding the one sample product. -/
def dbOne : DB := ⟨"ecommerce", [sampleDoc], [], 4⟩

/-- The id string under which `sampleDoc` is stored. -/
def sampleIdStr : String := bytesToHexStr (natToOidBytes 3)

/-! ## Codec lemmas -/

theorem hexCharVal_hexDigitChar {n : Nat} (h : n < 16) :
    hexCharVal (hexDigitChar n) = some n := by
  have hfin : ∀ i : Fin 16, hexCharVal (hexDigitChar i.val) = some i.val := by decide
  exact hfin ⟨n, h⟩

theorem parseHexBytes_bytesToHex : ∀ bs : List Nat, (∀ b ∈ bs, b < 256) →
    parseHexBytes (bytesToHex bs) = some bs
  | [], _ => rfl
  | b :: rest, h => by
    have hb : b < 256 := h b (List.mem_cons_self b rest)
    have h1 : b / 16 < 16 := Nat.div_lt_of_lt_mul hb
    have h2 : b % 16 < 16 := Nat.mod_lt _ (by norm_num)
    have ih := parseHexBytes_bytesToHex rest (fun x hx => h x (List.mem_cons_of_mem _ hx))
    have hdm : b / 16 * 16 + b % 16 = b := by omega
    simp [bytesToHex, parseHexBytes, hexCharVal_hexDigitChar h1, hexCharVal_hexDigitChar h2,
      ih, hdm]

theorem bytesToHex_length : ∀ bs : List Nat, (bytesToHex bs).length = 2 * bs.length
  | [] => rfl
  | b :: rest => by
    simp [bytesToHex, bytesToHex_length rest]
    omega

theorem parseHexBytes_all_hex : ∀ cs : List Char, ∀ bs : List Nat,
    parseHexBytes cs = some bs → ∀ c ∈ cs, isHexChar c = true
  | [], _, _ => by intro c hc; exact absurd hc (List.not_mem_nil c)
  | [c1], bs, h => by simp [parseHexBytes] at h
  | c1 :: c2 :: rest, bs, h => by
    cases h1 : hexCharVal c1 with
    | none => simp [parseHexBytes, h1] at h
    | some hv =>
      cases h2 : hexCharVal c2 with
      | none => simp [parseHexBytes, h1, h2] at h
      | some lv =>
        cases h3 : parseHexBytes rest with
        | none => simp [parseHexBytes, h1, h2, h3] at h
        | some bs2 =>
          intro c hc
          rcases List.mem_cons.mp hc with rfl | hc2
          · simp [isHexChar, h1]
          rcases List.mem_cons.mp hc2 with rfl | hc3
          · simp [isHexChar, h2]
          · exact parseHexBytes_all_hex rest bs2 h3 c hc3

theorem natToOidBytes_length (n : Nat) : (natToOidBytes n).length = 12 := by
  simp [natToOidBytes]

theorem natToOidBytes_lt (n : Nat) : ∀ b ∈ natToOidBytes n, b < 256 := by
  intro b hb
  simp only [natToOidBytes, List.mem_map] at hb
  obtain ⟨i, _, rfl⟩ := hb
  exact Nat.mod_lt _ (by norm_num)

/-- C3: the identifier codec round-trips — `ObjectId(str(x)) == x` for
every 12-byte native id `x` — and `ObjectId(s)` on a string not of the
native id shape (24 hex characters) fails with bson's `InvalidId`
("MalformedIdentifier"), which `get_product` surfaces as a 500 error
distinct from the 404 `NotFound`. -/
theorem claim_C3_codec_roundtrip :
    (∀ bs : List Nat, bs.length = 12 → (∀ b ∈ bs, b < 256) →
        objectIdOfString (bytesToHexStr bs) = some bs) ∧
    (∀ s : String, ¬(s.length = 24 ∧ ∀ c ∈ s.data, isHexChar c = true) →
        objectIdOfString s = none) ∧
    (∀ (d : DB) (s : String), objectIdOfString s = none →
        get_product (some d) s = .error 500 (invalidIdMsg s) ∧
        get_product (some d) s ≠ .error 404 "Product not found") := by
  refine ⟨?_, ?_, ?_⟩
  · intro bs hlen hlt
    have hslen : (bytesToHexStr bs).length = 24 := by
      simp [bytesToHexStr, String.length, bytesToHex_length, hlen]
    have hdata : (bytesToHexStr bs).data = bytesToHex bs := rfl
    simp [objectIdOfString, hslen, hdata, parseHexBytes_bytesToHex bs hlt]
  · intro s hshape
    by_cases hlen : s.length = 24
    · cases hp : parseHexBytes s.data with
      | none => simp [objectIdOfString, hlen, hp]
      | some bs =>
        exact absurd ⟨hlen, parseHexBytes_all_hex s.data bs hp⟩ hshape
    · simp [objectIdOfString, hlen]
  · intro d s hmal
    constructor
    · simp [get_product, hmal]
    · simp [get_product, hmal]

/-- Closed instance of the C3 theorem: the round-trip at a concrete
native id and the malformed-rejection at the concrete string `"zz"`. -/
theorem claim_C3_codec_roundtrip_witness :
    objectIdOfString (bytesToHexStr (natToOidBytes 5)) = some (natToOidBytes 5) ∧
    objectIdOfString "zz" = none := by
  constructor
  · exact claim_C3_codec_roundtrip.1 (natToOidBytes 5) (by decide) (by decide)
  · exact claim_C3_codec_roundtrip.2.1 "zz" (by decide)

/-! ## Dict lemmas -/

theorem dictLookup_dictErase_self (k : String) : ∀ d : Doc,
    dictLookup k (dictErase k d) = none
  | [] => rfl
  | (k2, v2) :: rest => by
    by_cases hk : k2 = k
    · simp [dictErase, List.filter, hk, dictLookup_dictErase_self k rest, dictErase] at *
      simpa [dictErase] using dictLookup_dictErase_self k rest
    · simp [dictErase, List.filter, hk, dictLookup, dictErase] at *
      simpa [dictLookup, hk, dictErase] using dictLookup_dictErase_self k rest

theorem dictLookup_dictErase_ne {k k' : String} (hne : k ≠ k') : ∀ d : Doc,
    dictLookup k (dictErase k' d) = dictLookup k d
  | [] => rfl
  | (k2, v2) :: rest => by
    by_cases hk : k2 = k'
    · subst hk
      simp [dictErase, List.filter, dictLookup, Ne.symm hne]
      simpa [dictErase] using dictLookup_dictErase_ne hne rest
    · by_cases hk2 : k2 = k
      · subst hk2
        simp [dictErase, List.filter, hk, dictLookup]
      · simp [dictErase, List.filter, hk, dictLookup, hk2]
        simpa [dictErase] using dictLookup_dictErase_ne hne rest

theorem dictLookup_dictSet_self (k : String) (v : Value) : ∀ d : Doc,
    dictLookup k (dictSet k v d) = some v
  | [] => by simp [dictSet, dictLookup]
  | (k2, v2) :: rest => by
    by_cases hk : k2 = k
    · simp [dictSet, hk, dictLookup]
    · simp [dictSet, hk, dictLookup, dictLookup_dictSet_self k v rest]

theorem dictLookup_dictSet_ne {k k' : String} (hne : k ≠ k') (v : Value) : ∀ d : Doc,
    dictLookup k (dictSet k' v d) = dictLookup k d
  | [] => by simp [dictSet, dictLookup, Ne.symm hne]
  | (k2, v2) :: rest => by
    by_cases hk : k2 = k'
    · subst hk
      simp [dictSet, dictLookup, Ne.symm hne, hne]
    · simp [dictSet, hk, dictLookup, dictLookup_dictSet_ne hne v rest]

/-- C4: `serialize_doc` never leaves `_id` in its output; when `_id` was
present the output's `id` field is its `str`-encoded form (for a native
`ObjectId`, the 24-hex-character encoding); every field other than `_id`
and `id` is unchanged. -/
theorem claim_C4_serialize_hides_internal_id (doc : Doc) :
    dictLookup "_id" (serialize_doc doc) = none ∧
    (∀ v, dictLookup "_id" doc = some v →
        dictLookup "id" (serialize_doc doc) = some (.str (pyStr v))) ∧
    (∀ bs, dictLookup "_id" doc = some (.oid bs) →
        dictLookup "id" (serialize_doc doc) = some (.str (bytesToHexStr bs))) ∧
    (∀ k, k ≠ "_id" → k ≠ "id" → dictLookup k (serialize_doc doc) = dictLookup k doc) := by
  by_cases hemp : doc.isEmpty
  · have : doc = [] := List.isEmpty_iff.mp hemp
    subst this
    simp [serialize_doc, dictLookup]
  · cases hid : dictLookup "_id" doc with
    | none =>
      refine ⟨?_, ?_, ?_, ?_⟩
      · simp [serialize_doc, hemp, hid]
      · intro v hv; simp [hid] at hv
      · intro bs hv; simp [hid] at hv
      · intro k _ _; simp [serialize_doc, hemp, hid]
    | some v =>
      have hser : serialize_doc doc = dictSet "id" (.str (pyStr v)) (dictErase "_id" doc) := by
        simp [serialize_doc, hemp, hid]
      refine ⟨?_, ?_, ?_, ?_⟩
      · rw [hser, dictLookup_dictSet_ne (by decide) _ _, dictLookup_dictErase_self]
      · intro v2 hv2
        cases hv2
        rw [hser, dictLookup_dictSet_self]
      · intro bs hbs
        cases hbs
        rw [hser, dictLookup_dictSet_self]
        rfl
      · intro k hk1 hk2
        rw [hser, dictLookup_dictSet_ne hk2 _ _, dictLookup_dictErase_ne hk1]

/-- Closed instance of the C4 theorem at a concrete stored product. -/
theorem claim_C4_serialize_witness :
    dictLookup "_id" (serialize_doc sampleDoc) = none ∧
    dictLookup "id" (serialize_doc sampleDoc) = some (.str "000000000000000000000003") ∧
    dictLookup "title" (serialize_doc sampleDoc) = some (.str "Mug") := by
  refine ⟨(claim_C4_serialize_hides_internal_id sampleDoc).1, ?_, ?_⟩
  · have h := (claim_C4_serialize_hides_internal_id sampleDoc).2.2.1 (natToOidBytes 3) (by rfl)
    rw [h]
    decide
  · have h := (claim_C4_serialize_hides_internal_id sampleDoc).2.2.2 "title" (by decide) (by decide)
    rw [h]
    rfl

/-- C5: `serialize_doc` does not mutate its argument — running its body
over an explicit heap of dict references leaves every pre-existing cell
(in particular the argument's) unchanged, the returned reference holds
exactly the pure `serialize_doc` of the input, and a falsy input (`None`
or `{}`) is returned as-is, heap untouched, rather than raising. -/
theorem claim_C5_serialize_no_mutation (h : Heap) (a : Nat) (_ha : a < h.length) :
    (∀ a2, a2 < h.length → hget (serialize_doc_heap h a).1 a2 = hget h a2) ∧
    hget (serialize_doc_heap h a).1 (serialize_doc_heap h a).2 =
      Option.map serialize_doc (hget h a) ∧
    (pyFalsyDoc (hget h a) = true → serialize_doc_heap h a = (h, a)) := by
  cases hv : hget h a with
  | none =>
    refine ⟨?_, ?_, ?_⟩ <;> simp [serialize_doc_heap, hv]
  | some d =>
    by_cases hemp : d.isEmpty
    · have hd : d = [] := List.isEmpty_iff.mp hemp
      subst hd
      refine ⟨?_, ?_, ?_⟩ <;>
        simp [serialize_doc_heap, hv, serialize_doc, pyFalsyDoc]
    · cases hid : dictLookup "_id" d with
      | none =>
        have heq : serialize_doc_heap h a = (h ++ [some d], h.length) := by
          simp [serialize_doc_heap, hv, hemp, hid]
        refine ⟨?_, ?_, ?_⟩
        · intro a2 ha2
          simp [heq, hget, List.getD_eq_getElem?_getD, List.getElem?_append, ha2]
        · rw [heq]
          simp [hget, hv, List.getD_eq_getElem?_getD, serialize_doc, hemp, hid]
        · intro hfal
          simp [pyFalsyDoc, hv, hemp] at hfal
      | some v =>
        have heq : serialize_doc_heap h a =
            ((h ++ [some d]).set h.length
              (some (dictSet "id" (.str (pyStr v)) (dictErase "_id" d))), h.length) := by
          simp [serialize_doc_heap, hv, hemp, hid]
        refine ⟨?_, ?_, ?_⟩
        · intro a2 ha2
          have hne : h.length ≠ a2 := Nat.ne_of_gt ha2
          simp [heq, hget, List.getD_eq_getElem?_getD, List.getElem?_set_ne hne,
            List.getElem?_append, ha2]
        · have hlt : h.length < (h ++ [some d]).length := by simp
          rw [heq]
          simp [hget, hv, List.getD_eq_getElem?_getD, List.getElem?_set_self, hlt,
            serialize_doc, hemp, hid]
        · intro hfal
          simp [pyFalsyDoc, hv, hemp] at hfal

/-- Closed instance of the C5 theorem: on a one-cell heap holding a
concrete stored document, the cell is unchanged after serialization. -/
theorem claim_C5_serialize_no_mutation_witness :
    hget (serialize_doc_heap [some sampleDoc] 0).1 0 = some sampleDoc := by
  have h := (claim_C5_serialize_no_mutation [some sampleDoc] 0 (by decide)).1 0 (by decide)
  rw [h]
  rfl

/-! ## Seeder lemmas -/

theorem insertManyProducts_products_length (d : DB) (docs : List Doc) :
    (insertManyProducts d docs).products.length = d.products.length + docs.length := by
  simp [insertManyProducts]

theorem insertManyProducts_orders (d : DB) (docs : List Doc) :
    (insertManyProducts d docs).orders = d.orders := rfl

/-- C1: on an empty product collection `seed_products` inserts the entire
fixed dataset and reports `seeded` with `inserted` = dataset size; on a
non-empty collection it performs no writes and reports `already-seeded`
with `inserted` = 0; two sequential calls insert the dataset exactly
once. -/
theorem claim_C1_seed_idempotent (d : DB) (h : d.products = []) :
    (∃ d1 : DB,
      seed_products (some d) = (some d1, .ok ⟨seedDataset.length, "seeded"⟩) ∧
      seed_products (some d1) = (some d1, .ok ⟨0, "already-seeded"⟩) ∧
      d1.products.length = seedDataset.length ∧
      d1.products.map (dictErase "_id") = seedDataset ∧
      d1.orders = d.orders) ∧
    (∀ d2 : DB, d2.products ≠ [] →
      seed_products (some d2) = (some d2, .ok ⟨0, "already-seeded"⟩)) := by
  constructor
  · refine ⟨insertManyProducts d seedDataset, ?_, ?_, ?_, ?_, ?_⟩
    · simp [seed_products, h]
    · have hlen : (insertManyProducts d seedDataset).products.length = 4 := by
        rw [insertManyProducts_products_length, h]
        rfl
      simp [seed_products, hlen]
    · rw [insertManyProducts_products_length, h]
      rfl
    · simp only [insertManyProducts, h, List.nil_append]
      rfl
    · exact insertManyProducts_orders d seedDataset
  · intro d2 h2
    have hlen : d2.products.length ≠ 0 := by
      simpa [List.length_eq_zero] using h2
    simp [seed_products, hlen]

/-- Closed instance of the C1 theorem starting from the concrete empty
database. -/
theorem claim_C1_seed_idempotent_witness :
    ∃ d1 : DB,
      seed_products (some dbEmpty) = (some d1, .ok ⟨seedDataset.length, "seeded"⟩) ∧
      seed_products (some d1) = (some d1, .ok ⟨0, "already-seeded"⟩) ∧
      d1.products.length = seedDataset.length ∧
      d1.products.map (dictErase "_id") = seedDataset ∧
      d1.orders = dbEmpty.orders :=
  (claim_C1_seed_idempotent dbEmpty rfl).1

/-! ## Order validation lemmas -/

theorem validateItems_none_iff (d : DB) : ∀ items : List OrderItem,
    validateItems d items = none ↔ ∀ j ∈ items, itemResolves d j.product_id = true
  | [] => by simp [validateItems]
  | item :: rest => by
    cases hobj : objectIdOfString item.product_id with
    | none =>
      simp only [validateItems, hobj]
      constructor
      · intro h; exact absurd h (by simp)
      · intro h
        have := h item (List.mem_cons_self item rest)
        simp [itemResolves, hobj] at this
    | some oidBytes =>
      by_cases hf : pyFalsyDoc (findProductById d.products oidBytes) = true
      · simp only [validateItems, hobj, hf, if_pos]
        constructor
        · intro h; exact absurd h (by simp)
        · intro h
          have := h item (List.mem_cons_self item rest)
          simp [itemResolves, hobj, hf] at this
      · have hres : itemResolves d item.product_id = true := by
          simp [itemResolves, hobj]
          exact Bool.not_eq_true _ ▸ (by simpa using hf)
        simp only [validateItems, hobj, if_neg hf]
        rw [validateItems_none_iff d rest]
        constructor
        · intro h j hj
          rcases List.mem_cons.mp hj with rfl | hj2
          · exact hres
          · exact h j hj2
        · intro h j hj
          exact h j (List.mem_cons_of_mem _ hj)

theorem validateItems_append (d : DB) : ∀ pre rest : List OrderItem,
    validateItems d pre = none →
    validateItems d (pre ++ rest) = validateItems d rest
  | [], rest, _ => rfl
  | item :: pre2, rest, h => by
    cases hobj : objectIdOfString item.product_id with
    | none => simp [validateItems, hobj] at h
    | some oidBytes =>
      by_cases hf : pyFalsyDoc (findProductById d.products oidBytes) = true
      · simp [validateItems, hobj, hf] at h
      · have h2 : validateItems d pre2 = none := by
          simpa [validateItems, hobj, if_neg hf] using h
        simp only [List.cons_append, validateItems, hobj, if_neg hf]
        exact validateItems_append d pre2 rest h2

theorem validateItems_cons_fail (d : DB) (it : OrderItem) (post : List OrderItem)
    (hfail : itemResolves d it.product_id = false) :
    validateItems d (it :: post) =
      (match objectIdOfString it.product_id with
       | none => some (500, invalidIdMsg it.product_id)
       | some _ => some (400, "Invalid product ID: " ++ it.product_id)) := by
  cases hobj : objectIdOfString it.product_id with
  | none => simp [validateItems, hobj]
  | some oidBytes =>
    have hf : pyFalsyDoc (findProductById d.products oidBytes) = true := by
      simpa [itemResolves, hobj] using hfail
    simp [validateItems, hobj, hf]

/-- C2 counterexample: the claim as stated fails on a malformed
`product_id`.  The first (and only) item of this order does not resolve —
`"zz"` is not even a parseable id — yet the handler does not produce the
`InvalidReference` error (`HTTPException(400, "Invalid product ID: zz")`):
bson's `InvalidId` escapes to the generic handler as a 500. -/
theorem claim_C2_counterexample :
    itemResolves dbEmpty "zz" = false ∧
    (create_order (some dbEmpty) ⟨[⟨"zz", 1⟩]⟩).2 = .error 500 (invalidIdMsg "zz") ∧
    (create_order (some dbEmpty) ⟨[⟨"zz", 1⟩]⟩).2 ≠
      .error 400 ("Invalid product ID: " ++ "zz") := by
  refine ⟨rfl, rfl, ?_⟩
  decide

/-- C2 (amended): validation is fail-fast — the first failing line item
short-circuits it and later items are never examined — but the error it
produces depends on how the item fails: a well-formed `product_id` with
no matching product yields `InvalidReference`
(`HTTPException(400, "Invalid product ID: <pid>")` naming the offending
id), while a malformed `product_id` yields a 500 with bson's `InvalidId`
message instead; if every `product_id` resolves, validation succeeds. -/
theorem claim_C2_fail_fast (d : DB) (pre post : List OrderItem) (it : OrderItem)
    (hpre : ∀ j ∈ pre, itemResolves d j.product_id = true)
    (hfail : itemResolves d it.product_id = false) :
    (∀ post2 : List OrderItem,
        create_order (some d) ⟨pre ++ it :: post2⟩ =
          create_order (some d) ⟨pre ++ it :: post⟩) ∧
    (∀ oidBytes, objectIdOfString it.product_id = some oidBytes →
        create_order (some d) ⟨pre ++ it :: post⟩ =
          (some d, .error 400 ("Invalid product ID: " ++ it.product_id))) ∧
    (objectIdOfString it.product_id = none →
        create_order (some d) ⟨pre ++ it :: post⟩ =
          (some d, .error 500 (invalidIdMsg it.product_id))) ∧
    (∀ o : Order, (∀ j ∈ o.items, itemResolves d j.product_id = true) →
        create_order (some d) o =
          (some (create_document_order d o).1,
           .ok (bytesToHexStr (create_document_order d o).2))) := by
  have hpre2 : validateItems d pre = none := (validateItems_none_iff d pre).mpr hpre
  have hhead : ∀ post2 : List OrderItem,
      validateItems d (pre ++ it :: post2) =
        (match objectIdOfString it.product_id with
         | none => some (500, invalidIdMsg it.product_id)
         | some _ => some (400, "Invalid product ID: " ++ it.product_id)) := by
    intro post2
    rw [validateItems_append d pre (it :: post2) hpre2]
    exact validateItems_cons_fail d it post2 hfail
  refine ⟨?_, ?_, ?_, ?_⟩
  · intro post2
    simp only [create_order, hhead post2, hhead post]
    cases objectIdOfString it.product_id <;> rfl
  · intro oidBytes hobj
    simp only [create_order]
    rw [hhead post, hobj]
  · intro hobj
    simp only [create_order]
    rw [hhead post, hobj]
  · intro o ho
    have hv : validateItems d o.items = none := (validateItems_none_iff d o.items).mpr ho
    simp [create_order, hv]

/-- Closed instance of the amended C2 theorem: a three-item order whose
second item references a missing product fails with the 400
`InvalidReference` error naming that id, the third (also bad) item
notwithstanding. -/
theorem claim_C2_fail_fast_witness :
    create_order (some dbOne)
        ⟨[⟨sampleIdStr, 1⟩] ++ ⟨"000000000000000000000000", 2⟩ :: [⟨"zz", 3⟩]⟩ =
      (some dbOne, .error 400 ("Invalid product ID: " ++ "000000000000000000000000")) := by
  have h := (claim_C2_fail_fast dbOne [⟨sampleIdStr, 1⟩] [⟨"zz", 3⟩]
      ⟨"000000000000000000000000", 2⟩ (by decide) (by decide)).2.1
    (List.replicate 12 0) (by decide)
  exact h

/-- C6: order creation is atomic with respect to validation failure.
Whenever `create_order` raises (any error, in particular
`InvalidReference`), the database state is unchanged — validation
performed no writes and no order document was inserted.  An order is
persisted (exactly one document appended to the order collection) only
when every line item's `product_id` resolves at validation time. -/
theorem claim_C6_create_order_atomic :
    (∀ (db : Option DB) (o : Order) (st : Nat) (msg : String),
        (create_order db o).2 = .error st msg → (create_order db o).1 = db) ∧
    (∀ (d : DB) (o : Order) (s : String),
        (create_order (some d) o).2 = .ok s →
        (∀ j ∈ o.items, itemResolves d j.product_id = true) ∧
        (create_order (some d) o).1 =
          some { d with orders := d.orders ++ [(natToOidBytes d.nextId, o)],
                        nextId := d.nextId + 1 }) := by
  constructor
  · intro db o st msg herr
    cases db with
    | none => rfl
    | some d =>
      cases hv : validateItems d o.items with
      | some e => simp [create_order, hv]
      | none => simp [create_order, hv] at herr
  · intro d o s hok
    cases hv : validateItems d o.items with
    | some e => simp [create_order, hv] at hok
    | none =>
      refine ⟨(validateItems_none_iff d o.items).mp hv, ?_⟩
      simp [create_order, hv, create_document_order]

/-- Closed instance of the C6 theorem: a failing order leaves the
database untouched; a valid order appends exactly one order document. -/
theorem claim_C6_create_order_atomic_witness :
    (create_order (some dbEmpty) ⟨[⟨"zz", 1⟩]⟩).1 = some dbEmpty ∧
    (create_order (some dbOne) ⟨[⟨sampleIdStr, 1⟩]⟩).1 =
      some { dbOne with orders := dbOne.orders ++ [(natToOidBytes 4, ⟨[⟨sampleIdStr, 1⟩]⟩)],
                        nextId := 5 } := by
  constructor
  · exact claim_C6_create_order_atomic.1 (some dbEmpty) ⟨[⟨"zz", 1⟩]⟩ 500
      (invalidIdMsg "zz") (by decide)
  · exact (claim_C6_create_order_atomic.2 dbOne ⟨[⟨sampleIdStr, 1⟩]⟩
      (bytesToHexStr (natToOidBytes 4)) (by decide)).2

/-- C7: `get_product` distinguishes its failure modes — a syntactically
valid id with no matching product yields the 404 `NotFound`
(`"Product not found"`), while a malformed id yields a distinct error
(HTTP 500 carrying bson's `InvalidId` message); a 404 and a 500 are never
the same response. -/
theorem claim_C7_get_product_modes :
    (∀ (d : DB) (pid : String) (oidBytes : List Nat),
        objectIdOfString pid = some oidBytes →
        pyFalsyDoc (findProductById d.products oidBytes) = true →
        get_product (some d) pid = .error 404 "Product not found") ∧
    (∀ (d : DB) (pid : String),
        objectIdOfString pid = none →
        get_product (some d) pid = .error 500 (invalidIdMsg pid)) ∧
    (∀ pid : String,
        (ApiResult.error 404 "Product not found" : ApiResult Doc) ≠
          .error 500 (invalidIdMsg pid)) := by
  refine ⟨?_, ?_, ?_⟩
  · intro d pid oidBytes hobj hfal
    cases hf : findProductById d.products oidBytes with
    | none => simp [get_product, hobj, hf]
    | some doc =>
      have hemp : doc.isEmpty = true := by simpa [pyFalsyDoc, hf] using hfal
      simp [get_product, hobj, hf, hemp]
  · intro d pid hobj
    simp [get_product, hobj]
  · intro pid h
    simp at h

/-- Closed instance of the C7 theorem: a concrete all-zero valid id on an
empty store yields the 404, the concrete malformed id `"zz"` yields the
500. -/
theorem claim_C7_get_product_modes_witness :
    get_product (some dbEmpty) "000000000000000000000000" = .error 404 "Product not found" ∧
    get_product (some dbEmpty) "zz" = .error 500 (invalidIdMsg "zz") := by
  constructor
  · exact claim_C7_get_product_modes.1 dbEmpty "000000000000000000000000"
      (List.replicate 12 0) (by decide) (by decide)
  · exact claim_C7_get_product_modes.2.1 dbEmpty "zz" (by decide)

/-- C8: an order with zero line items passes validation (the loop never
runs, producing no failure) and is persisted: `create_order` on an
available database succeeds and appends the empty order. -/
theorem claim_C8_empty_order_accepted (d : DB) :
    validateItems d ([] : List OrderItem) = none ∧
    create_order (some d) ⟨[]⟩ =
      (some { d with orders := d.orders ++ [(natToOidBytes d.nextId, ⟨[]⟩)],
                     nextId := d.nextId + 1 },
       .ok (bytesToHexStr (natToOidBytes d.nextId))) := by
  exact ⟨rfl, rfl⟩

/-! ## Diagnostic endpoint lemmas -/

theorem test_database_url_field (db : Option DB) (lr : Except String (List String)) (e : Env) :
    (test_database db lr e).database_url =
      some (if pyTruthyStrOpt e.database_url then "✅ Set" else "❌ Not Set") := rfl

theorem test_database_name_field (db : Option DB) (lr : Except String (List String)) (e : Env) :
    (test_database db lr e).database_name =
      some (if pyTruthyStrOpt e.database_name then "✅ Set" else "❌ Not Set") := rfl

theorem pyTruthyStrOpt_iff (o : Option String) :
    pyTruthyStrOpt o = true ↔ ∃ s, o = some s ∧ s ≠ "" := by
  cases o with
  | none => simp [pyTruthyStrOpt]
  | some s =>
    simp only [pyTruthyStrOpt, Bool.not_eq_true', Option.some.injEq]
    constructor
    · intro h
      exact ⟨s, rfl, by simpa [← String.isEmpty_iff s] using h⟩
    · rintro ⟨s2, rfl, hne⟩
      simp [← String.isEmpty_iff s] at hne
      exact hne

/-- C9: the diagnostic endpoint reports whether `DATABASE_URL` and
`DATABASE_NAME` are set without exposing their values: the two reported
fields take only the two indicator strings, any two environments agreeing
on which variables are set to a non-empty value produce identical
configuration fields, and the response reflects store availability in
`connection_status`. -/
theorem claim_C9_diag_no_value_leak :
    (∀ (db : Option DB) (lr : Except String (List String)) (e1 e2 : Env),
        ((∃ s, e1.database_url = some s ∧ s ≠ "") ↔ (∃ s, e2.database_url = some s ∧ s ≠ "")) →
        ((∃ s, e1.database_name = some s ∧ s ≠ "") ↔ (∃ s, e2.database_name = some s ∧ s ≠ "")) →
        (test_database db lr e1).database_url = (test_database db lr e2).database_url ∧
        (test_database db lr e1).database_name = (test_database db lr e2).database_name) ∧
    (∀ (db : Option DB) (lr : Except String (List String)) (e : Env),
        ((test_database db lr e).database_url = some "✅ Set" ∨
         (test_database db lr e).database_url = some "❌ Not Set") ∧
        ((test_database db lr e).database_name = some "✅ Set" ∨
         (test_database db lr e).database_name = some "❌ Not Set")) ∧
    (∀ (d : DB) (lr : Except String (List String)) (e : Env),
        (test_database (some d) lr e).connection_status = "Connected") ∧
    (∀ (lr : Except String (List String)) (e : Env),
        (test_database none lr e).connection_status = "Not Connected") := by
  refine ⟨?_, ?_, ?_, ?_⟩
  · intro db lr e1 e2 hurl hname
    have hiu : pyTruthyStrOpt e1.database_url = true ↔ pyTruthyStrOpt e2.database_url = true :=
      (pyTruthyStrOpt_iff _).trans (hurl.trans (pyTruthyStrOpt_iff _).symm)
    have hin : pyTruthyStrOpt e1.database_name = true ↔ pyTruthyStrOpt e2.database_name = true :=
      (pyTruthyStrOpt_iff _).trans (hname.trans (pyTruthyStrOpt_iff _).symm)
    have hu : pyTruthyStrOpt e1.database_url = pyTruthyStrOpt e2.database_url := by
      cases h1 : pyTruthyStrOpt e1.database_url <;> cases h2 : pyTruthyStrOpt e2.database_url <;>
        simp_all
    have hn : pyTruthyStrOpt e1.database_name = pyTruthyStrOpt e2.database_name := by
      cases h1 : pyTruthyStrOpt e1.database_name <;> cases h2 : pyTruthyStrOpt e2.database_name <;>
        simp_all
    rw [test_database_url_field, test_database_url_field, test_database_name_field,
      test_database_name_field, hu, hn]
    exact ⟨rfl, rfl⟩
  · intro db lr e
    rw [test_database_url_field, test_database_name_field]
    constructor
    · cases pyTruthyStrOpt e.database_url <;> simp
    · cases pyTruthyStrOpt e.database_name <;> simp
  · intro d lr e
    cases lr <;> rfl
  · intro lr e
    rfl

/-- Closed instance of the C9 theorem: two environments holding different
non-empty values produce the same reported configuration fields. -/
theorem claim_C9_diag_no_value_leak_witness :
    (test_database (some dbEmpty) (.ok ["product"]) ⟨some "mongodb://h1/a", none⟩).database_url =
      (test_database (some dbEmpty) (.ok ["product"]) ⟨some "mongodb://h2/b", none⟩).database_url ∧
    (test_database (some dbEmpty) (.ok ["product"]) ⟨some "mongodb://h1/a", none⟩).database_name =
      (test_database (some dbEmpty) (.ok ["product"]) ⟨some "mongodb://h2/b", none⟩).database_name :=
  claim_C9_diag_no_value_leak.1 (some dbEmpty) (.ok ["product"])
    ⟨some "mongodb://h1/a", none⟩ ⟨some "mongodb://h2/b", none⟩
    (by constructor <;> intro _ <;> exact ⟨_, rfl, by decide⟩)
    (by constructor <;> rintro ⟨s, hs, _⟩ <;> simp at hs)

/-- C10: listing products with `category = ""` behaves exactly like
listing with no category argument — the empty string is falsy, so the
filter mapping is empty and the result is all products up to the limit,
serialized. -/
theorem claim_C10_empty_category_no_filter :
    (∀ (db : Option DB) (limit : Nat),
        list_products db (some "") limit = list_products db none limit) ∧
    (∀ (d : DB) (limit : Nat),
        list_products (some d) (some "") limit =
          .ok ((d.products.take limit).map serialize_doc)) := by
  constructor
  · intro db limit
    cases db <;> rfl
  · intro d limit
    have hemp : ("" : String).isEmpty = true := rfl
    simp [list_products, get_documents, hemp]

/-- Closed instance of the C8 theorem: the empty order on the concrete
empty database is accepted and persisted. -/
theorem claim_C8_empty_order_accepted_witness :
    create_order (some dbEmpty) ⟨[]⟩ =
      (some { dbEmpty with orders := dbEmpty.orders ++ [(natToOidBytes 0, ⟨[]⟩)],
                           nextId := 1 },
       .ok (bytesToHexStr (natToOidBytes 0))) :=
  (claim_C8_empty_order_accepted dbEmpty).2

/-- Closed instance of the C10 theorem on the concrete one-product
database. -/
theorem claim_C10_empty_category_no_filter_witness :
    list_products (some dbOne) (some "") 50 = list_products (some dbOne) none 50 :=
  claim_C10_empty_category_no_filter.1 (some dbOne) 50

end ECom
